import Mathlib

/-!
Verification development for the LyricLens client and its API contract.

The TypeScript sources embedded here:
- `lyriclens-client/src/types` (interfaces `ISuggestionItem`, `ISong`,
  `ILyricsAnalysis`);
- `lyriclens-client/src/hooks/useLyricLens` (the stateful hook with the
  three operations `searchSongs`, `getLyrics`, `analyzeLyrics`);
- `lyriclens-client/src/components/lyrics/lyrics.tsx` (the `Lyrics`
  component: effect on song selection fetches lyrics, effect on lyrics
  triggers analysis);
- `lyriclens-client/src/pages/SearchPage.tsx` (`handleSearch`,
  `handleSongClick`, the back action, and the render conditions);
- `lyriclens-client/src/components/song/song-grid.tsx` (`SongGrid`).

Each hook operation is embedded as the list of React state-setter calls it
performs (`Eff`), in source order, for a given outcome of its `fetch` call;
the resulting state is the left fold of those setters over the previous
hook state.  A `fetch` outcome is either a rejection (network/transport
failure, or a thrown non-`Error` value) or a response carrying `ok`,
`statusText` and a body whose JSON parse may itself fail.
-/

/-- `interface ISuggestionItem` from `types/index.ts`: raw external search
API shape.  Optional fields become `Option`. -/
structure ISuggestionItem where
  title : String
  artist : String
  album : Option String
  preview_url : Option String
  cover_url : Option String
deriving Repr, DecidableEq

/-- `interface ISong` from `types/index.ts`: the client display model. -/
structure ISong where
  id : String
  title : String
  artist : String
  coverUrl : Option String
deriving Repr, DecidableEq

/-- `interface ILyricsAnalysis` from `types/index.ts`. -/
structure ILyricsAnalysis where
  summary : String
  countries_mentioned : List String
deriving Repr, DecidableEq

/-- A JavaScript thrown value as seen by a `catch (err)` block: either an
`Error` object carrying a message, or some non-`Error` value. -/
inductive JsError where
  | errObj (msg : String)
  | nonError
deriving Repr, DecidableEq

/-- `err instanceof Error ? err.message : fallback` — how every catch block
of the hook turns a thrown value into the string passed to `setError`. -/
def jsErrorMessage (e : JsError) (fallback : String) : String :=
  match e with
  | JsError.errObj msg => msg
  | JsError.nonError => fallback

/-- A settled `fetch` `Response`, with the body already represented by the
outcome of `response.json()` (which may itself reject). -/
structure HttpResponse (β : Type) where
  ok : Bool
  statusText : String
  body : Except JsError β
deriving Repr

/-- Outcome of one `await fetch(...)`: rejection, or a settled response. -/
abbrev FetchResult (β : Type) : Type := Except JsError (HttpResponse β)

/-- JavaScript truthiness of a nullable string value: `null`/`undefined`
and the empty string are falsy. -/
def jsTruthyStr (s : Option String) : Bool :=
  match s with
  | none => false
  | some v => v ≠ ""

/-- The JSON body shape `searchSongs` reads: `data.suggestions` (present
and an array, or not) and `data.error`. -/
structure SearchBody where
  suggestions : Option (List ISuggestionItem)
  error : Option String
deriving Repr

/-- The JSON body shape `getLyrics` reads: `data.lyrics`. -/
structure LyricsBody where
  lyrics : Option String
deriving Repr

/-- State owned by `useLyricLens` (one `useState` per field). -/
structure HookState where
  songs : List ISong
  lyrics : Option String
  lyricsAnalysis : Option ILyricsAnalysis
  isLoading : Bool
  error : Option String
deriving Repr, DecidableEq

/-- The initial values of the five `useState` calls in `useLyricLens`. -/
def initialHookState : HookState :=
  { songs := [], lyrics := none, lyricsAnalysis := none,
    isLoading := false, error := none }

/-- One React state-setter call made by a hook operation. -/
inductive Eff where
  | setSongs (l : List ISong)
  | setLyrics (v : Option String)
  | setLyricsAnalysis (v : Option ILyricsAnalysis)
  | setIsLoading (b : Bool)
  | setError (v : Option String)
deriving Repr, DecidableEq

/-- Apply one setter call to the hook state. -/
def applyEff (st : HookState) (e : Eff) : HookState :=
  match e with
  | Eff.setSongs l => { st with songs := l }
  | Eff.setLyrics v => { st with lyrics := v }
  | Eff.setLyricsAnalysis v => { st with lyricsAnalysis := v }
  | Eff.setIsLoading b => { st with isLoading := b }
  | Eff.setError v => { st with error := v }

/-- Apply a sequence of setter calls in order. -/
def applyEffs (st : HookState) (es : List Eff) : HookState :=
  es.foldl applyEff st

/-- The mapping `searchSongs` applies to each suggestion:
`{ id: song.title + "-" + song.artist, title, artist, coverUrl: song.cover_url }`. -/
def suggestionToSong (s : ISuggestionItem) : ISong :=
  { id := s.title ++ "-" ++ s.artist,
    title := s.title,
    artist := s.artist,
    coverUrl := s.cover_url }

/-- The setter calls of the `try`/`catch` part of `searchSongs` (between
`setIsLoading(true); setError(null)` and the `finally` block), for a given
fetch outcome. -/
def searchSongsTry (r : FetchResult SearchBody) : List Eff :=
  match r with
  | Except.error e =>
      [Eff.setError (some (jsErrorMessage e
          "An error occurred while searching for songs")),
       Eff.setSongs []]
  | Except.ok resp =>
      if resp.ok = false then
        [Eff.setError (some (jsErrorMessage
            (JsError.errObj ("Error: " ++ resp.statusText))
            "An error occurred while searching for songs")),
         Eff.setSongs []]
      else
        match resp.body with
        | Except.error e =>
            [Eff.setError (some (jsErrorMessage e
                "An error occurred while searching for songs")),
             Eff.setSongs []]
        | Except.ok data =>
            match data.suggestions with
            | some l => [Eff.setSongs (l.map suggestionToSong)]
            | none =>
                Eff.setSongs [] ::
                  (if jsTruthyStr data.error then [Eff.setError data.error]
                   else [])

/-- All setter calls of one `searchSongs(query)` invocation, in source
order: start, try/catch body, `finally`. -/
def searchSongsEffs (r : FetchResult SearchBody) : List Eff :=
  Eff.setIsLoading true :: Eff.setError none ::
    (searchSongsTry r ++ [Eff.setIsLoading false])

/-- Hook state after one `searchSongs` invocation with fetch outcome `r`. -/
def searchSongs (st : HookState) (r : FetchResult SearchBody) : HookState :=
  applyEffs st (searchSongsEffs r)

/-- The setter calls of the `try`/`catch` part of `getLyrics`. -/
def getLyricsTry (r : FetchResult LyricsBody) : List Eff :=
  match r with
  | Except.error e =>
      [Eff.setError (some (jsErrorMessage e
          "An error occurred while fetching lyrics"))]
  | Except.ok resp =>
      if resp.ok = false then
        [Eff.setError (some (jsErrorMessage
            (JsError.errObj ("Error: " ++ resp.statusText))
            "An error occurred while fetching lyrics"))]
      else
        match resp.body with
        | Except.error e =>
            [Eff.setError (some (jsErrorMessage e
                "An error occurred while fetching lyrics"))]
        | Except.ok data => [Eff.setLyrics data.lyrics]

/-- All setter calls of one `getLyrics(song)` invocation. -/
def getLyricsEffs (r : FetchResult LyricsBody) : List Eff :=
  Eff.setIsLoading true :: Eff.setError none ::
    (getLyricsTry r ++ [Eff.setIsLoading false])

/-- Hook state after one `getLyrics` invocation with fetch outcome `r`. -/
def getLyrics (st : HookState) (r : FetchResult LyricsBody) : HookState :=
  applyEffs st (getLyricsEffs r)

/-- The setter calls of the `try`/`catch` part of `analyzeLyrics`. -/
def analyzeLyricsTry (r : FetchResult ILyricsAnalysis) : List Eff :=
  match r with
  | Except.error e =>
      [Eff.setError (some (jsErrorMessage e
          "An error occurred while analyzing lyrics"))]
  | Except.ok resp =>
      if resp.ok = false then
        [Eff.setError (some (jsErrorMessage
            (JsError.errObj ("Error: " ++ resp.statusText))
            "An error occurred while analyzing lyrics"))]
      else
        match resp.body with
        | Except.error e =>
            [Eff.setError (some (jsErrorMessage e
                "An error occurred while analyzing lyrics"))]
        | Except.ok data => [Eff.setLyricsAnalysis (some data)]

/-- All setter calls of one `analyzeLyrics(song, lyrics)` invocation.  The
`song` and `lyrics` arguments only shape the request body and do not
influence which setters run. -/
def analyzeLyricsEffs (r : FetchResult ILyricsAnalysis) : List Eff :=
  Eff.setIsLoading true :: Eff.setError none ::
    (analyzeLyricsTry r ++ [Eff.setIsLoading false])

/-- Hook state after one `analyzeLyrics` invocation with fetch outcome `r`. -/
def analyzeLyrics (st : HookState) (r : FetchResult ILyricsAnalysis) :
    HookState :=
  applyEffs st (analyzeLyricsEffs r)

/-- Outcome of mounting the `Lyrics` component for a selected song: final
hook state and how many times each operation was invoked. -/
structure LyricsComponentRun where
  final : HookState
  lyricsFetches : Nat
  analyzeCalls : Nat
deriving Repr

/-- One mount of the `Lyrics` component (`lyrics.tsx`) for a selected
`song`, given the fetch outcomes of the lyrics and analyze requests.  The
component owns a fresh `useLyricLens` instance.  The effect keyed on
`[song]` runs once and awaits `getLyrics(song)`; the effect keyed on
`[lyrics]` then runs and calls `analyzeLyrics(song, lyrics)` only when
`if (lyrics)` holds, i.e. when the lyrics state is truthy. -/
def runLyricsComponent (rl : FetchResult LyricsBody)
    (ra : FetchResult ILyricsAnalysis) : LyricsComponentRun :=
  let st1 := getLyrics initialHookState rl
  if jsTruthyStr st1.lyrics then
    { final := analyzeLyrics st1 ra, lyricsFetches := 1, analyzeCalls := 1 }
  else
    { final := st1, lyricsFetches := 1, analyzeCalls := 0 }

/-- JavaScript `String.prototype.trim`: strip leading and trailing
whitespace (used by `handleSearch` only to test for a blank query). -/
def jsTrim (s : String) : String :=
  String.mk
    (((s.data.dropWhile Char.isWhitespace).reverse.dropWhile
        Char.isWhitespace).reverse)

/-- State owned by `SearchPage`: the submitted query, the selected song,
and the page's `useLyricLens` hook state. -/
structure PageState where
  query : String
  selectedSong : Option ISong
  hook : HookState
deriving Repr

/-- `handleSearch(searchQuery)`: stores the query; if the trimmed query is
empty it returns early, otherwise it clears the selection and runs
`searchSongs`.  Also returns the number of network requests issued. -/
def handleSearch (st : PageState) (q : String) (r : FetchResult SearchBody) :
    PageState × Nat :=
  let st1 := { st with query := q }
  if jsTrim q = "" then (st1, 0)
  else
    ({ st1 with selectedSong := none, hook := searchSongs st1.hook r }, 1)

/-- `handleSongClick(song)`: selects the song. -/
def handleSongClick (st : PageState) (song : ISong) : PageState :=
  { st with selectedSong := some song }

/-- The `onBack` handler passed to `Lyrics`: `setSelectedSong(null)`. -/
def handleBack (st : PageState) : PageState :=
  { st with selectedSong := none }

/-- A user-level action on `SearchPage` that can touch `selectedSong`. -/
inductive PageAction where
  | search (q : String)
  | songClick (s : ISong)
  | back
deriving Repr

/-- The view state (`browsing` = `none`, `viewingSong` = `some song`) after
one page action, as implemented by `handleSearch`, `handleSongClick` and
the back handler. -/
def viewStep (v : Option ISong) (a : PageAction) : Option ISong :=
  match a with
  | PageAction.search q => if jsTrim q = "" then v else none
  | PageAction.songClick s => some s
  | PageAction.back => none

/-- What the `SongGrid` component renders for given props. -/
structure GridRender where
  showsSkeleton : Bool
  showsEmptyMessage : Bool
  songCardCount : Nat
deriving Repr, DecidableEq

/-- `SongGrid` (`song-grid.tsx`): skeleton while loading, the empty
message for an empty song list, otherwise one `SongCard` per song. -/
def renderSongGrid (songs : List ISong) (isLoading : Bool) : GridRender :=
  if isLoading then
    { showsSkeleton := true, showsEmptyMessage := false, songCardCount := 0 }
  else if songs.length = 0 then
    { showsSkeleton := false, showsEmptyMessage := true, songCardCount := 0 }
  else
    { showsSkeleton := false, showsEmptyMessage := false,
      songCardCount := songs.length }

/-- What `SearchPage` renders for a given page state. -/
structure PageRender where
  showsHeader : Bool
  showsNoResultsHeader : Bool
  showsLyricsPanel : Bool
  showsGrid : Bool
  grid : GridRender
deriving Repr

/-- The JSX conditions of `SearchPage.tsx`: the results header renders when
`query && !isLoading && !error && !selectedSong`, and reads "No results
found" exactly when `songs.length` is not positive; the `Lyrics` panel
renders when a song is selected; the `SongGrid` renders when none is. -/
def renderSearchPage (st : PageState) : PageRender :=
  let headerVisible : Bool :=
    st.query ≠ "" && !st.hook.isLoading && !(jsTruthyStr st.hook.error) &&
      st.selectedSong.isNone
  { showsHeader := headerVisible,
    showsNoResultsHeader := headerVisible && !(st.hook.songs.length > 0),
    showsLyricsPanel := st.selectedSong.isSome,
    showsGrid := st.selectedSong.isNone,
    grid :=
      if st.selectedSong.isNone then
        renderSongGrid st.hook.songs st.hook.isLoading
      else
        { showsSkeleton := false, showsEmptyMessage := false,
          songCardCount := 0 } }

/-- Association-list lookup used by the modelled backend cache. -/
def cacheLookup (c : List ((String × String) × ILyricsAnalysis))
    (k : String × String) : Option ILyricsAnalysis :=
  match c with
  | [] => none
  | (k2, v) :: rest => if k = k2 then some v else cacheLookup rest k

/-- Modelled backend state: the Redis analysis cache (within one TTL
window, so no eviction between consecutive calls) and the number of AI
collaborator invocations made so far. -/
structure BackendState where
  cache : List ((String × String) × ILyricsAnalysis)
  aiCalls : Nat
deriving Repr

/-- Modelled from the spec: the Django view behind `POST /api/song/analyze`
is not under `src/` (only the client and deployment files are).  Per spec
section 4.1, it "checks cache for existing analysis keyed by track/artist;
on miss, calls external AI collaborator, stores result in cache, returns
the summary and countries".  `ai` is the external AI collaborator. -/
def analyzeEndpoint (ai : String → String → String → ILyricsAnalysis)
    (st : BackendState) (track_name artist_name lyricsText : String) :
    ILyricsAnalysis × BackendState :=
  match cacheLookup st.cache (track_name, artist_name) with
  | some cached => (cached, st)
  | none =>
      let a := ai track_name artist_name lyricsText
      (a, { cache := ((track_name, artist_name), a) :: st.cache,
            aiCalls := st.aiCalls + 1 })

/-- A fetch outcome that rejected or returned a non-2xx response (the two
failure kinds the lyrics-fetch claim names). -/
def fetchRejectedOrNotOk {β : Type} (r : FetchResult β) : Bool :=
  match r with
  | Except.error _ => true
  | Except.ok resp => !resp.ok

/-- A fetch outcome on which a hook operation's `try` block throws:
rejection, non-2xx response, or a body whose JSON parse fails. -/
def fetchFailed {β : Type} (r : FetchResult β) : Bool :=
  match r with
  | Except.error _ => true
  | Except.ok resp =>
      !resp.ok ||
        (match resp.body with
         | Except.error _ => true
         | Except.ok _ => false)

/-- A 2xx response whose JSON body parses but carries no `suggestions`
array (the unexpected-shape branch of `searchSongs`). -/
def searchResponseLacksSuggestions (r : FetchResult SearchBody) : Bool :=
  match r with
  | Except.error _ => false
  | Except.ok resp =>
      resp.ok &&
        (match resp.body with
         | Except.error _ => false
         | Except.ok data => data.suggestions.isNone)

/-- A concrete song used to instantiate theorems (the spec's own example). -/
def demoSong : ISong :=
  { id := "Bohemian Rhapsody-Queen", title := "Bohemian Rhapsody",
    artist := "Queen", coverUrl := none }

theorem applyEffs_isLoading_last (st : HookState) (es : List Eff) (b : Bool) :
    (applyEffs st (es ++ [Eff.setIsLoading b])).isLoading = b := by
  simp [applyEffs, List.foldl_append, applyEff]

theorem op_effs_split (x y : Eff) (mid : List Eff) (z : Eff) :
    x :: y :: (mid ++ [z]) = (x :: y :: mid) ++ [z] := by
  simp

/-- C1: for every search response carrying a suggestions array,
`searchSongs` maps each suggestion one-to-one into a `Song` whose `id` is
the suggestion's title, a hyphen and the artist, whose title and artist
are the suggestion's, and whose `coverUrl` is the suggestion's
`cover_url`. -/
theorem searchSongs_maps_suggestions (st : HookState) (statusText : String)
    (l : List ISuggestionItem) (e : Option String) :
    (searchSongs st
        (Except.ok
          { ok := true, statusText := statusText,
            body := Except.ok { suggestions := some l, error := e } })).songs
      = l.map suggestionToSong
    ∧ ∀ s : ISuggestionItem, suggestionToSong s =
        { id := s.title ++ "-" ++ s.artist, title := s.title,
          artist := s.artist, coverUrl := s.cover_url } := by
  constructor
  · simp [searchSongs, searchSongsEffs, searchSongsTry, applyEffs, applyEff]
  · intro s
    rfl

/-- C4: each of `searchSongs`, `getLyrics` and `analyzeLyrics` begins with
`setIsLoading(true)` then `setError(null)`, and its last setter call —
reached on success and failure paths alike — is `setIsLoading(false)`, so
the resulting state always has `isLoading = false`. -/
theorem operations_loading_error_lifecycle (st : HookState)
    (rs : FetchResult SearchBody) (rl : FetchResult LyricsBody)
    (ra : FetchResult ILyricsAnalysis) :
    ((searchSongsEffs rs).take 2 = [Eff.setIsLoading true, Eff.setError none]
      ∧ (searchSongsEffs rs).getLast? = some (Eff.setIsLoading false)
      ∧ (searchSongs st rs).isLoading = false)
    ∧ ((getLyricsEffs rl).take 2 = [Eff.setIsLoading true, Eff.setError none]
      ∧ (getLyricsEffs rl).getLast? = some (Eff.setIsLoading false)
      ∧ (getLyrics st rl).isLoading = false)
    ∧ ((analyzeLyricsEffs ra).take 2 =
        [Eff.setIsLoading true, Eff.setError none]
      ∧ (analyzeLyricsEffs ra).getLast? = some (Eff.setIsLoading false)
      ∧ (analyzeLyrics st ra).isLoading = false) := by
  refine ⟨⟨rfl, ?_, ?_⟩, ⟨rfl, ?_, ?_⟩, ⟨rfl, ?_, ?_⟩⟩
  · rw [searchSongsEffs, op_effs_split, List.getLast?_concat]
  · rw [searchSongs, searchSongsEffs, op_effs_split, applyEffs_isLoading_last]
  · rw [getLyricsEffs, op_effs_split, List.getLast?_concat]
  · rw [getLyrics, getLyricsEffs, op_effs_split, applyEffs_isLoading_last]
  · rw [analyzeLyricsEffs, op_effs_split, List.getLast?_concat]
  · rw [analyzeLyrics, analyzeLyricsEffs, op_effs_split,
      applyEffs_isLoading_last]

/-- C2: when the lyrics fetch for a selected song rejects or returns a
non-2xx response, the `Lyrics` component ends with a non-null `error`
string and never invokes `analyzeLyrics` for that selection. -/
theorem getLyrics_failure_no_analyze (rl : FetchResult LyricsBody)
    (ra : FetchResult ILyricsAnalysis)
    (h : fetchRejectedOrNotOk rl = true) :
    (runLyricsComponent rl ra).final.error.isSome = true
    ∧ (runLyricsComponent rl ra).analyzeCalls = 0 := by
  cases rl with
  | error e =>
      constructor <;>
        simp [runLyricsComponent, getLyrics, getLyricsEffs, getLyricsTry,
          applyEffs, applyEff, initialHookState, jsTruthyStr]
  | ok resp =>
      have hok : resp.ok = false := by
        simpa [fetchRejectedOrNotOk] using h
      constructor <;>
        simp [runLyricsComponent, getLyrics, getLyricsEffs, getLyricsTry,
          applyEffs, applyEff, initialHookState, jsTruthyStr, hok]

theorem getLyrics_failure_no_analyze_witness :
    (runLyricsComponent (Except.error (JsError.errObj "Failed to fetch"))
        (Except.error JsError.nonError)).final.error.isSome = true
    ∧ (runLyricsComponent (Except.error (JsError.errObj "Failed to fetch"))
        (Except.error JsError.nonError)).analyzeCalls = 0 :=
  getLyrics_failure_no_analyze
    (Except.error (JsError.errObj "Failed to fetch"))
    (Except.error JsError.nonError) rfl

theorem lyrics_empty_string_counterexample :
    (runLyricsComponent
        (Except.ok
          { ok := true, statusText := "OK",
            body := Except.ok { lyrics := some "" } })
        (Except.ok
          { ok := true, statusText := "OK",
            body := Except.ok
              { summary := "s", countries_mentioned := [] } })).final.lyrics
      = some ""
    ∧ (runLyricsComponent
        (Except.ok
          { ok := true, statusText := "OK",
            body := Except.ok { lyrics := some "" } })
        (Except.ok
          { ok := true, statusText := "OK",
            body := Except.ok
              { summary := "s", countries_mentioned := [] } })).analyzeCalls
      = 0 := by
  constructor <;> rfl

/-- C3 (amended): mounting the `Lyrics` component for a selection triggers
exactly one lyrics fetch, and triggers exactly one analyze call when the
fetched lyrics value is truthy (non-null and non-empty) and none
otherwise — in particular a fetched empty-string lyrics value, though
non-null, triggers no analyze call. -/
theorem lyrics_component_call_counts (rl : FetchResult LyricsBody)
    (ra : FetchResult ILyricsAnalysis) :
    (runLyricsComponent rl ra).lyricsFetches = 1
    ∧ (runLyricsComponent rl ra).analyzeCalls =
        (if jsTruthyStr (getLyrics initialHookState rl).lyrics then 1
         else 0) := by
  cases h : jsTruthyStr (getLyrics initialHookState rl).lyrics <;>
    constructor <;> simp [runLyricsComponent, h]

/-- C5: when a search has completed (not loading, no error), the query is
non-empty, no song is selected and the song list is empty, `SearchPage`
shows the "No results found" header and the grid renders no song card. -/
theorem empty_results_render (st : PageState)
    (hq : st.query ≠ "") (hl : st.hook.isLoading = false)
    (he : st.hook.error = none) (hsel : st.selectedSong = none)
    (hempty : st.hook.songs = []) :
    (renderSearchPage st).showsNoResultsHeader = true
    ∧ (renderSearchPage st).grid.songCardCount = 0
    ∧ (renderSearchPage st).grid.showsEmptyMessage = true := by
  refine ⟨?_, ?_, ?_⟩ <;>
    simp [renderSearchPage, renderSongGrid, jsTruthyStr, hq, hl, he, hsel,
      hempty]

theorem empty_results_render_witness :
    (renderSearchPage
        { query := "Bohemian Rhapsody", selectedSong := none,
          hook := initialHookState }).showsNoResultsHeader = true
    ∧ (renderSearchPage
        { query := "Bohemian Rhapsody", selectedSong := none,
          hook := initialHookState }).grid.songCardCount = 0
    ∧ (renderSearchPage
        { query := "Bohemian Rhapsody", selectedSong := none,
          hook := initialHookState }).grid.showsEmptyMessage = true :=
  empty_results_render
    { query := "Bohemian Rhapsody", selectedSong := none,
      hook := initialHookState }
    (by decide) rfl rfl rfl rfl

theorem view_search_while_viewing_counterexample :
    viewStep (some demoSong) (PageAction.search "Bohemian Rhapsody")
      ≠ some demoSong := by
  simp [viewStep, jsTrim]

/-- C6 (amended): the view state over browsing (`none`) and viewingSong
(`some song`) transitions as follows: song selection moves to viewingSong,
the back action moves to browsing, and submitting a search whose trimmed
query is non-empty also moves to browsing, while a blank search leaves the
view unchanged; no other action changes the view state. -/
theorem view_state_machine (v : Option ISong) (s : ISong) (q : String) :
    viewStep v (PageAction.songClick s) = some s
    ∧ viewStep v PageAction.back = none
    ∧ viewStep v (PageAction.search q) =
        (if jsTrim q = "" then v else none) :=
  ⟨rfl, rfl, rfl⟩

theorem malformed_shape_leaves_error_null_counterexample :
    (searchSongs initialHookState
        (Except.ok
          { ok := true, statusText := "OK",
            body := Except.ok
              { suggestions := none, error := none } })).error = none
    ∧ fetchFailed
        ((Except.ok
          { ok := true, statusText := "OK",
            body := Except.ok
              { suggestions := none, error := none } }) :
          FetchResult SearchBody) = false := by
  constructor <;> rfl

/-- C7 (amended): every network/transport failure, every non-2xx response
and every JSON body that fails to parse is caught inside the operation
that issued it and stored as a human-readable string in `error`, for all
three operations; a syntactically valid JSON body of unexpected shape,
however, is not treated as a failure and leaves `error` null (for
`searchSongs` it only stores the error string the body itself carries). -/
theorem failures_set_error (st : HookState) (rs : FetchResult SearchBody)
    (rl : FetchResult LyricsBody) (ra : FetchResult ILyricsAnalysis) :
    (fetchFailed rs = true → (searchSongs st rs).error.isSome = true)
    ∧ (fetchFailed rl = true → (getLyrics st rl).error.isSome = true)
    ∧ (fetchFailed ra = true →
        (analyzeLyrics st ra).error.isSome = true) := by
  refine ⟨?_, ?_, ?_⟩
  · intro h
    cases rs with
    | error e =>
        simp [searchSongs, searchSongsEffs, searchSongsTry, applyEffs,
          applyEff]
    | ok resp =>
        cases hok : resp.ok with
        | false =>
            simp [searchSongs, searchSongsEffs, searchSongsTry, applyEffs,
              applyEff, hok]
        | true =>
            cases hb : resp.body with
            | error e =>
                simp [searchSongs, searchSongsEffs, searchSongsTry,
                  applyEffs, applyEff, hok, hb]
            | ok data => simp [fetchFailed, hok, hb] at h
  · intro h
    cases rl with
    | error e =>
        simp [getLyrics, getLyricsEffs, getLyricsTry, applyEffs, applyEff]
    | ok resp =>
        cases hok : resp.ok with
        | false =>
            simp [getLyrics, getLyricsEffs, getLyricsTry, applyEffs,
              applyEff, hok]
        | true =>
            cases hb : resp.body with
            | error e =>
                simp [getLyrics, getLyricsEffs, getLyricsTry, applyEffs,
                  applyEff, hok, hb]
            | ok data => simp [fetchFailed, hok, hb] at h
  · intro h
    cases ra with
    | error e =>
        simp [analyzeLyrics, analyzeLyricsEffs, analyzeLyricsTry,
          applyEffs, applyEff]
    | ok resp =>
        cases hok : resp.ok with
        | false =>
            simp [analyzeLyrics, analyzeLyricsEffs, analyzeLyricsTry,
              applyEffs, applyEff, hok]
        | true =>
            cases hb : resp.body with
            | error e =>
                simp [analyzeLyrics, analyzeLyricsEffs, analyzeLyricsTry,
                  applyEffs, applyEff, hok, hb]
            | ok data => simp [fetchFailed, hok, hb] at h

theorem failures_set_error_witness :
    (searchSongs initialHookState
        (Except.error JsError.nonError)).error.isSome = true
    ∧ (getLyrics initialHookState
        (Except.ok
          { ok := false, statusText := "Not Found",
            body := Except.error JsError.nonError })).error.isSome = true
    ∧ (analyzeLyrics initialHookState
        (Except.ok
          { ok := true, statusText := "OK",
            body := Except.error
              (JsError.errObj
                "Unexpected end of JSON input") })).error.isSome = true := by
  obtain ⟨h1, h2, h3⟩ :=
    failures_set_error initialHookState (Except.error JsError.nonError)
      (Except.ok
        { ok := false, statusText := "Not Found",
          body := Except.error JsError.nonError })
      (Except.ok
        { ok := true, statusText := "OK",
          body := Except.error (JsError.errObj "Unexpected end of JSON input") })
  exact ⟨h1 rfl, h2 rfl, h3 rfl⟩

/-- C8: two consecutive analyze requests with the same track name, artist
name and lyrics — with no eviction in between, i.e. within the cache TTL —
return the same analysis, and the second request performs no AI
collaborator invocation (its call count is unchanged). -/
theorem analyze_second_call_cached
    (ai : String → String → String → ILyricsAnalysis) (st : BackendState)
    (track artist lyricsText : String) :
    (analyzeEndpoint ai (analyzeEndpoint ai st track artist lyricsText).2
        track artist lyricsText).1
      = (analyzeEndpoint ai st track artist lyricsText).1
    ∧ (analyzeEndpoint ai (analyzeEndpoint ai st track artist lyricsText).2
        track artist lyricsText).2.aiCalls
      = (analyzeEndpoint ai st track artist lyricsText).2.aiCalls := by
  cases h : cacheLookup st.cache (track, artist) with
  | some cached => constructor <;> simp [analyzeEndpoint, h]
  | none => constructor <;> simp [analyzeEndpoint, h, cacheLookup]

/-- C9: a failed search (rejected fetch, non-2xx response, or unparsable
body) and a parsed response lacking a suggestions array both leave
`searchSongs` with an empty song list, clearing any previously displayed
results. -/
theorem failed_search_clears_songs (st : HookState)
    (rs : FetchResult SearchBody)
    (h : fetchFailed rs = true ∨ searchResponseLacksSuggestions rs = true) :
    (searchSongs st rs).songs = [] := by
  cases rs with
  | error e =>
      simp [searchSongs, searchSongsEffs, searchSongsTry, applyEffs,
        applyEff]
  | ok resp =>
      cases hok : resp.ok with
      | false =>
          simp [searchSongs, searchSongsEffs, searchSongsTry, applyEffs,
            applyEff, hok]
      | true =>
          cases hb : resp.body with
          | error e =>
              simp [searchSongs, searchSongsEffs, searchSongsTry,
                applyEffs, applyEff, hok, hb]
          | ok data =>
              cases hs : data.suggestions with
              | none =>
                  cases he : jsTruthyStr data.error <;>
                    simp [searchSongs, searchSongsEffs, searchSongsTry,
                      applyEffs, applyEff, hok, hb, hs, he]
              | some l =>
                  rcases h with h | h
                  · simp [fetchFailed, hok, hb] at h
                  · simp [searchResponseLacksSuggestions, hok, hb, hs] at h

theorem failed_search_clears_songs_witness :
    (searchSongs { initialHookState with songs := [demoSong] }
        (Except.error JsError.nonError)).songs = [] :=
  failed_search_clears_songs { initialHookState with songs := [demoSong] }
    (Except.error JsError.nonError) (Or.inl rfl)

/-- C10: submitting a search whose trimmed query is empty issues no
network request and leaves the selected song and the whole hook state —
songs, isLoading and error included — unchanged; only the stored query
text is updated. -/
theorem blank_query_search_is_noop (st : PageState) (q : String)
    (r : FetchResult SearchBody) (h : jsTrim q = "") :
    (handleSearch st q r).2 = 0
    ∧ (handleSearch st q r).1.query = q
    ∧ (handleSearch st q r).1.selectedSong = st.selectedSong
    ∧ (handleSearch st q r).1.hook = st.hook
    ∧ (handleSearch st q r).1.hook.songs = st.hook.songs
    ∧ (handleSearch st q r).1.hook.isLoading = st.hook.isLoading
    ∧ (handleSearch st q r).1.hook.error = st.hook.error := by
  refine ⟨?_, ?_, ?_, ?_, ?_, ?_, ?_⟩ <;> simp [handleSearch, h]

theorem blank_query_search_is_noop_witness :
    (handleSearch
        { query := "Bohemian Rhapsody", selectedSong := some demoSong,
          hook := initialHookState } "   " (Except.error JsError.nonError)).2
      = 0
    ∧ (handleSearch
        { query := "Bohemian Rhapsody", selectedSong := some demoSong,
          hook := initialHookState } "   "
        (Except.error JsError.nonError)).1.query = "   "
    ∧ (handleSearch
        { query := "Bohemian Rhapsody", selectedSong := some demoSong,
          hook := initialHookState } "   "
        (Except.error JsError.nonError)).1.selectedSong = some demoSong
    ∧ (handleSearch
        { query := "Bohemian Rhapsody", selectedSong := some demoSong,
          hook := initialHookState } "   "
        (Except.error JsError.nonError)).1.hook = initialHookState := by
  obtain ⟨h1, h2, h3, h4, -⟩ :=
    blank_query_search_is_noop
      { query := "Bohemian Rhapsody", selectedSong := some demoSong,
        hook := initialHookState } "   " (Except.error JsError.nonError)
      (by decide)
  exact ⟨h1, h2, h3, h4⟩
